import Mathlib

/-!
# LectureLens bot — verification of the natural-language specification

A shallow embedding in Lean 4 of the data store (`db.py`) and the pure parts
of the dialogue controller (`main.py`) of the LectureLens Telegram bot,
together with theorems settling the specification's claims.

Modelling conventions:
* Python strings are Lean `String`s; character-level work happens on `String.data`
  (a `List Char`), with Python's `str.strip`, `str.split`, `str.lower` and the
  two regular expressions of `clean_filename` re-implemented as structural
  Lean functions on `List Char`.
* Python `str.lower` and the regex class `\w` are Unicode aware; the embedding
  models them restricted to the ASCII and Cyrillic ranges, which cover every
  alphabet this repository manipulates.
* SQLite tables are Lean lists of rows; `INTEGER PRIMARY KEY AUTOINCREMENT`
  is an explicit `nextFileId` counter; `INSERT OR REPLACE` / `ON CONFLICT DO
  UPDATE` erase the conflicting row and cons the new one.
* Python `raise ValueError` is `Except DbError`; the two error classes of the
  spec's taxonomy (`ValidationError`, `NotFoundError`) correspond to the two
  kinds of `ValueError` messages the code raises.  Message texts are elided.
* SQLite's `AVG` over integer scores is modelled as the exact rational mean.
-/

/-! ## Python string primitives on `List Char` -/

/-- The whitespace class used by the embedding for Python's `str.strip`,
`str.split()` and the regex class `\s` (restricted to the ASCII whitespace
characters Lean's `Char.isWhitespace` knows). -/
def pyWs (c : Char) : Bool := c.isWhitespace

/-- Drop leading and trailing whitespace from a character list:
Python's `str.strip()`. -/
def trimChars (l : List Char) : List Char :=
  ((l.dropWhile pyWs).reverse.dropWhile pyWs).reverse

/-- Python's `str.strip()` on a `String`. -/
def pyStrip (s : String) : String := ⟨trimChars s.data⟩

/-- Python's truthiness test `not s.strip()`: the string is blank
(empty or whitespace-only). -/
def pyBlank (s : String) : Bool := trimChars s.data = []

/-- Split a character list at every character satisfying `p`, keeping empty
pieces — the semantics of Python's `str.split(sep)` for a one-character
separator when `p` tests for that separator.  The result is always a
non-empty list of pieces. -/
def splitPred (p : Char → Bool) : List Char → List (List Char)
  | [] => [[]]
  | c :: rest =>
    match splitPred p rest with
    | [] => [[]]
    | w :: ws => if p c then [] :: w :: ws else (c :: w) :: ws

/-- Python's `s.split(",")`. -/
def splitComma (l : List Char) : List (List Char) := splitPred (· = ',') l

/-- Python's `s.split()` with no separator: split on whitespace runs and
drop the empty pieces. -/
def splitWs (l : List Char) : List (List Char) :=
  (splitPred pyWs l).filter (· ≠ [])

/-- Python's `str.lower`, restricted to the ASCII and Cyrillic alphabets:
`A`–`Z`, `А`–`Я` and `Ё` map to their lowercase forms, every other character
is unchanged. -/
def pyLower (c : Char) : Char :=
  if 'A' ≤ c ∧ c ≤ 'Z' then Char.ofNat (c.toNat + 32)
  else if 'А' ≤ c ∧ c ≤ 'Я' then Char.ofNat (c.toNat + 32)
  else if c = 'Ё' then 'ё'
  else c

/-- Lowercase a word (Python `word.lower()` character by character). -/
def lowerChars (l : List Char) : List Char := l.map pyLower

/-! ## `clean_filename` (main.py lines 75–93) -/

/-- The regex class `\w` of `re.sub(r"[^\w\s\.\-]", "", filename)`:
letters, digits and the underscore — modelled for the ASCII and Cyrillic
(U+0410–U+044F, Ё/ё) alphabets. -/
def pyWordChar (c : Char) : Bool :=
  c.isAlphanum || c = '_' ||
    ('А' ≤ c ∧ c ≤ 'я') || c = 'Ё' || c = 'ё'

/-- A character kept by `re.sub(r"[^\w\s\.\-]", "", filename)`:
word characters, whitespace, `.` and `-`. -/
def keepChar (c : Char) : Bool :=
  pyWordChar c || pyWs c || c = '.' || c = '-'

/-- `re.sub(r"\s+", " ", l)`: collapse every run of whitespace to a single
space. -/
def collapseWs : List Char → List Char
  | [] => []
  | [c] => if pyWs c then [' '] else [c]
  | c₁ :: c₂ :: rest =>
    if pyWs c₁ then
      if pyWs c₂ then collapseWs (c₂ :: rest)
      else ' ' :: collapseWs (c₂ :: rest)
    else c₁ :: collapseWs (c₂ :: rest)

/-- The index of the last `.` in a character list, if any. -/
def lastDotIdx (l : List Char) : Option Nat :=
  (l.reverse.findIdx? (· = '.')).map (fun j => l.length - 1 - j)

/-- `os.path.splitext` for a bare file name (no directory separators):
split at the last dot, except that a name whose every character before the
last dot is itself a dot (such as `.bashrc`) has no extension. -/
def splitext (l : List Char) : List Char × List Char :=
  match lastDotIdx l with
  | none => (l, [])
  | some i => if (l.take i).any (· ≠ '.') then (l.take i, l.drop i) else (l, [])

/-- `clean_filename` (main.py lines 75–93): remove every character outside
`[\w\s.-]`, collapse whitespace runs to single spaces and strip, truncate a
result longer than 100 characters to the first 90 characters of the stem
plus the extension, and fall back to `"unnamed_file"` when empty. -/
def clean_filename (filename : String) : String :=
  let cleaned := filename.data.filter keepChar
  let cleaned := trimChars (collapseWs cleaned)
  let cleaned :=
    if cleaned.length > 100 then
      let p := splitext cleaned
      p.1.take 90 ++ p.2
    else cleaned
  if cleaned = [] then "unnamed_file" else ⟨cleaned⟩

/-- The sanitization pipeline exactly as the specification words it
(claim C5): keep only letters, digits, whitespace, `.` and `-` —
no underscore.  Defined for comparison with `clean_filename`. -/
def keepCharSpecC5 (c : Char) : Bool :=
  c.isAlphanum || ('А' ≤ c ∧ c ≤ 'я') || c = 'Ё' || c = 'ё' ||
    pyWs c || c = '.' || c = '-'

/-- `clean_filename` as the specification describes it (claim C5), i.e.
with the underscore stripped rather than kept. -/
def clean_filename_specC5 (filename : String) : String :=
  let cleaned := filename.data.filter keepCharSpecC5
  let cleaned := trimChars (collapseWs cleaned)
  let cleaned :=
    if cleaned.length > 100 then
      let p := splitext cleaned
      p.1.take 90 ++ p.2
    else cleaned
  if cleaned = [] then "unnamed_file" else ⟨cleaned⟩

/-! ## The data store (db.py) -/

/-- A row of the `users` table: `user_id INTEGER PRIMARY KEY, name TEXT`. -/
structure UserRow where
  user_id : Int
  name : String
  deriving DecidableEq, Repr

/-- A row of the `files` table: auto-incremented `file_id`, owner, stored
path, comma-separated tags and human-readable original name. -/
structure FileRow where
  file_id : Int
  user_id : Int
  file_path : String
  tags : String
  original_name : String
  deriving DecidableEq, Repr

/-- A row of the `ratings` table, primary key `(file_id, user_id)`,
`rating` between 1 and 5. -/
structure RatingRow where
  file_id : Int
  user_id : Int
  rating : Int
  deriving DecidableEq, Repr

/-- The whole SQLite database.  `nextFileId` models the AUTOINCREMENT
counter of `files.file_id`: the id the next successful insert receives. -/
structure Db where
  users : List UserRow
  files : List FileRow
  ratings : List RatingRow
  nextFileId : Int
  deriving DecidableEq, Repr

/-- The freshly initialised database (`init_db`): empty tables, file ids
starting at 1. -/
def dbInit : Db := { users := [], files := [], ratings := [], nextFileId := 1 }

/-- The two error classes of the spec's taxonomy.  The Python code raises
`ValueError` in both situations; the `NotFoundError` class corresponds to
its "… не найден" messages (missing user in `add_file`, missing file in
`rate_file`), `ValidationError` to the input-validation messages. -/
inductive DbError where
  | validationError
  | notFoundError
  deriving DecidableEq, Repr

/-- `add_user` (db.py lines 63–100): validate the id and the name, then
`INSERT OR REPLACE INTO users` with the stripped name. -/
def add_user (db : Db) (user_id : Int) (name : String) : Except DbError Db :=
  if user_id ≤ 0 then .error .validationError
  else if pyBlank name then .error .validationError
  else .ok { db with
    users := ⟨user_id, pyStrip name⟩ ::
      db.users.filter (fun u => u.user_id ≠ user_id) }

/-- Name lookup by user id (the `SELECT name FROM users WHERE user_id = ?`
of `show_profile` in main.py): the first matching row's name, if any. -/
def getUserName (db : Db) (user_id : Int) : Option String :=
  (db.users.find? (fun u => u.user_id = user_id)).map (·.name)

/-- `add_file` (db.py lines 103–163): validate all four fields, check the
owner exists, then insert the file with stripped fields under the next
AUTOINCREMENT id and return that id. -/
def add_file (db : Db) (user_id : Int) (file_path tags original_name : String) :
    Except DbError (Int × Db) :=
  if user_id ≤ 0 then .error .validationError
  else if pyBlank file_path then .error .validationError
  else if pyBlank tags then .error .validationError
  else if pyBlank original_name then .error .validationError
  else if db.users.all (fun u => u.user_id ≠ user_id) then .error .notFoundError
  else .ok (db.nextFileId, { db with
    files := db.files ++
      [⟨db.nextFileId, user_id, pyStrip file_path, pyStrip tags,
        pyStrip original_name⟩],
    nextFileId := db.nextFileId + 1 })

/-- `rate_file` (db.py lines 308–357): validate both ids and the score,
check the file exists, then upsert the rating on the composite key
`(file_id, user_id)`. -/
def rate_file (db : Db) (file_id user_id rating : Int) : Except DbError Db :=
  if file_id ≤ 0 then .error .validationError
  else if user_id ≤ 0 then .error .validationError
  else if ¬(1 ≤ rating ∧ rating ≤ 5) then .error .validationError
  else if db.files.all (fun f => f.file_id ≠ file_id) then .error .notFoundError
  else .ok { db with
    ratings := ⟨file_id, user_id, rating⟩ ::
      db.ratings.filter
        (fun r => ¬(r.file_id = file_id ∧ r.user_id = user_id)) }

/-- The average rating of a file, as `SELECT AVG(rating) FROM ratings WHERE
file_id = ?` computes it: the exact mean of the matching scores, `0.0`
(i.e. the `None` fallback of db.py line 385) when there are none. -/
def file_avg (db : Db) (file_id : Int) : Rat :=
  let scores := (db.ratings.filter (fun r => r.file_id = file_id)).map (·.rating)
  if scores.isEmpty then 0 else ((scores.sum : Int) : Rat) / (scores.length : Rat)

/-- `get_file_rating` (db.py lines 360–391): reject a non-positive id, else
return the average rating. -/
def get_file_rating (db : Db) (file_id : Int) : Except DbError Rat :=
  if file_id ≤ 0 then .error .validationError
  else .ok (file_avg db file_id)

/-- `get_file_path_by_id` (db.py lines 229–257): `None` for a non-positive
id, else the path of the first row with that id, `None` when there is no
such row.  The function is total — it never raises. -/
def get_file_path_by_id (db : Db) (file_id : Int) : Option String :=
  if file_id ≤ 0 then none
  else (db.files.find? (fun f => f.file_id = file_id)).map (·.file_path)

/-! ## `search_files` (db.py lines 166–226) -/

/-- `set(word.lower() for word in query.strip().split())` (db.py line 208),
as the list of lowered whitespace-separated words. -/
def query_words (query : String) : List (List Char) :=
  (splitWs (trimChars query.data)).map lowerChars

/-- `set(word.strip().lower() for word in tags.split(","))` (db.py line
213), as the list of trimmed-and-lowered comma-separated words. -/
def tag_words (tags : String) : List (List Char) :=
  (splitComma tags.data).map (fun w => lowerChars (trimChars w))

/-- The `if query_words & tag_words:` test of db.py line 214: the two word
sets intersect. -/
def wordsIntersect (query tags : String) : Bool :=
  (query_words query).any (fun w => (tag_words tags).contains w)

/-- One entry of the list `search_files` returns (db.py lines 215–224). -/
structure SearchRow where
  file_id : Int
  file_path : String
  original_name : String
  tags : String
  author_name : String
  rating : Rat
  deriving DecidableEq, Repr

/-- The `JOIN users u ON f.user_id = u.user_id` of the search query:
every file paired with its author's name (files whose owner is missing
from `users` are dropped by the inner join). -/
def joinRows (db : Db) : List (FileRow × String) :=
  db.files.filterMap
    (fun f => (db.users.find? (fun u => u.user_id = f.user_id)).map
      (fun u => (f, u.name)))

/-- The result dictionary built for one matching row (db.py lines 216–223).
Its `rating` field is `get_file_rating(file_id)`; file ids stored in the
table are positive, so that call's validation guard never fires and the
value is the average `file_avg`. -/
def mkSearchRow (db : Db) (f : FileRow) (author : String) : SearchRow :=
  { file_id := f.file_id, file_path := f.file_path,
    original_name := f.original_name, tags := f.tags,
    author_name := author, rating := file_avg db f.file_id }

/-- The result list of a non-blank search: the joined rows whose tag words
meet the query words, each rendered by `mkSearchRow`. -/
def searchRows (db : Db) (query : String) : List SearchRow :=
  ((joinRows db).filter (fun p => wordsIntersect query p.1.tags)).map
    (fun p => mkSearchRow db p.1 p.2)

/-- `search_files` (db.py lines 166–226): reject a blank query, else return
the matching rows. -/
def search_files (db : Db) (query : String) : Except DbError (List SearchRow) :=
  if pyBlank query then .error .validationError
  else .ok (searchRows db query)

/-! ## Operation sequences -/

/-- One mutating store call, as issued by the bot's handlers. -/
inductive Op where
  | addUser (user_id : Int) (name : String)
  | addFile (user_id : Int) (file_path tags original_name : String)
  | rateFile (file_id user_id rating : Int)
  deriving Repr

/-- The database an operation produces when it succeeds. -/
def opResult (db : Db) : Op → Except DbError Db
  | .addUser uid name => add_user db uid name
  | .addFile uid p t n => (add_file db uid p t n).map (·.2)
  | .rateFile fid uid r => rate_file db fid uid r

/-- The database after an operation: the new state on success, the old
state untouched when the operation raises (the code validates and raises
before any INSERT, and each call is its own transaction). -/
def applyOp (db : Db) (op : Op) : Db :=
  match opResult db op with
  | .ok db₂ => db₂
  | .error _ => db

/-- Run a sequence of operations left to right. -/
def runOps (db : Db) : List Op → Db
  | [] => db
  | op :: rest => runOps (applyOp db op) rest

/-- The file ids handed back by the successful `addFile` operations of a
sequence, in order. -/
def createdIds (db : Db) : List Op → List Int
  | [] => []
  | .addFile uid p t n :: rest =>
    match add_file db uid p t n with
    | .ok x => x.1 :: createdIds x.2 rest
    | .error _ => createdIds db rest
  | op :: rest => createdIds (applyOp db op) rest

/-! ## Claim C5 — filename sanitization -/

/-- The sanitization keep-set as the amended claim words it: letters,
digits, the underscore, whitespace, `.` and `-` (letters again modelled
for the ASCII and Cyrillic alphabets). -/
def keepCharAmendedC5 (c : Char) : Bool :=
  (c.isAlpha || ('А' ≤ c ∧ c ≤ 'я') || c = 'Ё' || c = 'ё') || c.isDigit ||
    c = '_' || pyWs c || c = '.' || c = '-'

/-- The amended sanitization pipeline: identical to the claim's except that
the underscore is kept as well. -/
def clean_filename_amendedC5 (filename : String) : String :=
  let cleaned := filename.data.filter keepCharAmendedC5
  let cleaned := trimChars (collapseWs cleaned)
  let cleaned :=
    if cleaned.length > 100 then
      let p := splitext cleaned
      p.1.take 90 ++ p.2
    else cleaned
  if cleaned = [] then "unnamed_file" else ⟨cleaned⟩

/-- The code's keep-set and the amended claim's keep-set agree on every
character. -/
theorem keepChar_eq_amended (c : Char) : keepChar c = keepCharAmendedC5 c := by
  simp only [keepChar, pyWordChar, keepCharAmendedC5, Char.isAlphanum]
  rw [Bool.eq_iff_iff]
  simp only [Bool.or_eq_true]
  tauto

/-- Claim C5, counterexample: the claim's keep-set omits the underscore,
which the code's `\w` keeps.  On `"a_b.pdf"` the code returns `"a_b.pdf"`
while the claim as stated predicts `"ab.pdf"`. -/
theorem claim_C5_counterexample :
    clean_filename "a_b.pdf" = "a_b.pdf" ∧
    clean_filename_specC5 "a_b.pdf" = "ab.pdf" ∧
    clean_filename "a_b.pdf" ≠ clean_filename_specC5 "a_b.pdf" := by
  refine ⟨by decide, by decide, by decide⟩

/-- Claim C5 (amended): sanitization strips all characters except letters,
digits, the underscore, whitespace, `.` and `-`; collapses whitespace runs
to one space; truncates a result longer than 100 characters to the first 90
characters of the stem plus the extension; and falls back to
`"unnamed_file"` when the result is empty.  In particular
`"lecture?.pdf"` sanitizes to `"lecture.pdf"` and an empty or garbage-only
name to the placeholder. -/
theorem claim_C5_amended_clean_filename :
    (∀ s, clean_filename s = clean_filename_amendedC5 s) ∧
    clean_filename "lecture?.pdf" = "lecture.pdf" ∧
    clean_filename "a_b.pdf" = "a_b.pdf" ∧
    clean_filename "" = "unnamed_file" ∧
    clean_filename "???" = "unnamed_file" := by
  refine ⟨fun s => ?_, by decide, by decide, by decide, by decide⟩
  have h : s.data.filter keepChar = s.data.filter keepCharAmendedC5 :=
    List.filter_congr (fun c _ => keepChar_eq_amended c)
  simp only [clean_filename, clean_filename_amendedC5, h]

/-! ## Claim C8 — `upsertUser` last-write-wins and idempotence -/

/-- Claim C8, counterexample: `add_user` stores the *stripped* name, so a
lookup after submitting `" Боб "` returns `"Боб"`, not the name as
submitted.  The pair `(1, " Боб ")` is valid (positive id, non-blank
name). -/
theorem claim_C8_counterexample :
    (0 : Int) < 1 ∧ pyBlank " Боб " = false ∧
    getUserName (applyOp dbInit (.addUser 1 " Боб ")) 1 = some "Боб" ∧
    ("Боб" : String) ≠ " Боб " := by
  refine ⟨by decide, by decide, by decide, by decide⟩

/-- Claim C8 (amended): for every valid `(id, name)` pair, `upsertUser`
succeeds, a name lookup for that id then returns the latest submitted name
with surrounding whitespace stripped (insert-or-replace by id, last write
wins), and repeating the call with the same pair leaves the users table —
indeed the whole store — unchanged. -/
theorem claim_C8_upsert_user (db : Db) (id : Int) (name : String)
    (hid : 0 < id) (hname : pyBlank name = false) :
    ∃ db₂, add_user db id name = .ok db₂ ∧
      getUserName db₂ id = some (pyStrip name) ∧
      add_user db₂ id name = .ok db₂ := by
  have hid' : ¬ id ≤ 0 := by omega
  refine ⟨{ db with users := ⟨id, pyStrip name⟩ :: db.users.filter (fun u => u.user_id ≠ id) }, ?_, ?_, ?_⟩
  · simp only [add_user, if_neg hid', hname]
    rfl
  · simp [getUserName, List.find?]
  · simp only [add_user, if_neg hid', hname, Bool.false_eq_true, if_false]
    congr 2
    simp only [List.filter_cons, decide_not, decide_eq_true_eq]
    rw [if_neg (by simp)]
    rw [List.filter_filter]
    simp

/-- Witness for `claim_C8_upsert_user` at `db = dbInit`, `id = 7`,
`name = "Олег"`. -/
theorem claim_C8_upsert_user_witness :
    (0 : Int) < 7 ∧ pyBlank "Олег" = false ∧
    (∃ db₂, add_user dbInit 7 "Олег" = .ok db₂ ∧
      getUserName db₂ 7 = some (pyStrip "Олег") ∧
      add_user db₂ 7 "Олег" = .ok db₂) :=
  ⟨by decide, by decide, claim_C8_upsert_user dbInit 7 "Олег" (by decide) (by decide)⟩

/-! ## Claim C2 — average rating and re-rating -/

/-- A ratings list with no row for `fid` is untouched by the upsert's
conflict deletion. -/
theorem ratings_filter_keep {l : List RatingRow} {fid uid : Int}
    (h : ∀ r ∈ l, r.file_id ≠ fid) :
    l.filter (fun r => ¬(r.file_id = fid ∧ r.user_id = uid)) = l := by
  apply List.filter_eq_self.mpr
  intro r hr
  simp only [decide_not, decide_eq_true_eq, Bool.not_eq_true']
  simp only [Bool.not_eq_true, decide_eq_false_iff_not]
  exact fun hc => h r hr hc.1

/-- A ratings list with no row for `fid` contributes no score for `fid`. -/
theorem ratings_filter_nil {l : List RatingRow} {fid : Int}
    (h : ∀ r ∈ l, r.file_id ≠ fid) :
    l.filter (fun r => r.file_id = fid) = [] := by
  rw [List.filter_eq_nil_iff]
  intro r hr
  simp [h r hr]

/-- Reduction: an operation whose result is known applies to that state. -/
theorem applyOp_ok {db db₂ : Db} {op : Op} (h : opResult db op = .ok db₂) :
    applyOp db op = db₂ := by
  simp [applyOp, h]

/-- Reduction: `rate_file` succeeds on valid input naming an existing file,
upserting on the composite key. -/
theorem rate_file_ok {db : Db} {fid uid score : Int}
    (hfid : ¬ fid ≤ 0) (huid : ¬ uid ≤ 0) (hscore : 1 ≤ score ∧ score ≤ 5)
    (hex : ∃ f ∈ db.files, f.file_id = fid) :
    rate_file db fid uid score = .ok { db with
      ratings := ⟨fid, uid, score⟩ ::
        db.ratings.filter (fun r => ¬(r.file_id = fid ∧ r.user_id = uid)) } := by
  obtain ⟨f₀, hf₀, he⟩ := hex
  unfold rate_file
  rw [if_neg hfid, if_neg huid, if_neg (not_not_intro hscore), if_neg ?_]
  intro hcontra
  rw [List.all_eq_true] at hcontra
  have h₀ := hcontra f₀ hf₀
  simp [he] at h₀

/-- Claim C2: `averageRating` is exactly `0.0` on a file with no rating
rows; after raters `A` (score 2) and `B` (score 4) rate the file the
average is `3.0`; and after `A` re-rates it to 5 the upsert on the
composite key `(file_id, rater_id)` overwrites rather than duplicates, so
the average becomes `(5 + 4)/2 = 4.5`. -/
theorem claim_C2_average_rating (db : Db) (fid A B : Int)
    (hfid : 0 < fid) (hA : 0 < A) (hB : 0 < B) (hAB : A ≠ B)
    (hfile : ∃ f ∈ db.files, f.file_id = fid)
    (hnone : ∀ r ∈ db.ratings, r.file_id ≠ fid) :
    get_file_rating db fid = .ok 0 ∧
    get_file_rating
      (applyOp (applyOp db (.rateFile fid A 2)) (.rateFile fid B 4)) fid
      = .ok 3 ∧
    get_file_rating
      (applyOp (applyOp (applyOp db (.rateFile fid A 2)) (.rateFile fid B 4))
        (.rateFile fid A 5)) fid
      = .ok (9 / 2) := by
  obtain ⟨f₀, hf₀, hfid₀⟩ := hfile
  have hfid' : ¬ fid ≤ 0 := by omega
  have hA' : ¬ A ≤ 0 := by omega
  have hB' : ¬ B ≤ 0 := by omega
  have e₁ : applyOp db (.rateFile fid A 2) =
      { db with ratings := ⟨fid, A, 2⟩ :: db.ratings } := by
    apply applyOp_ok
    show rate_file db fid A 2 = _
    rw [rate_file_ok hfid' hA' (by norm_num) ⟨f₀, hf₀, hfid₀⟩,
      ratings_filter_keep hnone]
  have hex₂ : ∃ f ∈ ({ db with ratings := ⟨fid, A, 2⟩ :: db.ratings } : Db).files,
      f.file_id = fid := ⟨f₀, hf₀, hfid₀⟩
  have hex₃ : ∃ f ∈ ({ db with
      ratings := ⟨fid, B, 4⟩ :: ⟨fid, A, 2⟩ :: db.ratings } : Db).files,
      f.file_id = fid := ⟨f₀, hf₀, hfid₀⟩
  have e₂ : applyOp { db with ratings := ⟨fid, A, 2⟩ :: db.ratings }
      (.rateFile fid B 4) =
      { db with ratings := ⟨fid, B, 4⟩ :: ⟨fid, A, 2⟩ :: db.ratings } := by
    apply applyOp_ok
    show rate_file _ fid B 4 = _
    rw [rate_file_ok hfid' hB' (by norm_num) hex₂,
      List.filter_cons_of_pos (by simp [hAB]),
      ratings_filter_keep hnone]
  have e₃ : applyOp
      { db with ratings := ⟨fid, B, 4⟩ :: ⟨fid, A, 2⟩ :: db.ratings }
      (.rateFile fid A 5) =
      { db with ratings := ⟨fid, A, 5⟩ :: ⟨fid, B, 4⟩ :: db.ratings } := by
    apply applyOp_ok
    show rate_file _ fid A 5 = _
    rw [rate_file_ok hfid' hA' (by norm_num) hex₃,
      List.filter_cons_of_pos (by simp [Ne.symm hAB]),
      List.filter_cons_of_neg (by simp),
      ratings_filter_keep hnone]
  refine ⟨?_, ?_, ?_⟩
  · rw [get_file_rating, if_neg hfid', file_avg]
    rw [ratings_filter_nil hnone]
    rfl
  · rw [e₁, e₂, get_file_rating, if_neg hfid', file_avg]
    rw [List.filter_cons_of_pos (by simp), List.filter_cons_of_pos (by simp),
      ratings_filter_nil hnone]
    norm_num
  · rw [e₁, e₂, e₃, get_file_rating, if_neg hfid', file_avg]
    rw [List.filter_cons_of_pos (by simp), List.filter_cons_of_pos (by simp),
      ratings_filter_nil hnone]
    norm_num

/-- A sample store: one user who owns one tagged file, no ratings yet. -/
def dbSample1 : Db :=
  { users := [⟨1, "Олег"⟩],
    files := [⟨1, 1, "storage/lec.pdf", "матан, лекция", "Лекция.pdf"⟩],
    ratings := [],
    nextFileId := 2 }

/-- Witness for `claim_C2_average_rating`: file 1 of `dbSample1`, raters 2
and 3. -/
theorem claim_C2_average_rating_witness :
    ((0 : Int) < 1 ∧ (0 : Int) < 2 ∧ (0 : Int) < 3 ∧ (2 : Int) ≠ 3 ∧
      (∃ f ∈ dbSample1.files, f.file_id = 1) ∧
      (∀ r ∈ dbSample1.ratings, r.file_id ≠ 1)) ∧
    (get_file_rating dbSample1 1 = .ok 0 ∧
     get_file_rating
       (applyOp (applyOp dbSample1 (.rateFile 1 2 2)) (.rateFile 1 3 4)) 1
       = .ok 3 ∧
     get_file_rating
       (applyOp (applyOp (applyOp dbSample1 (.rateFile 1 2 2))
         (.rateFile 1 3 4)) (.rateFile 1 2 5)) 1
       = .ok (9 / 2)) :=
  ⟨⟨by decide, by decide, by decide, by decide, by decide, by decide⟩,
   claim_C2_average_rating dbSample1 1 2 3 (by decide) (by decide) (by decide)
     (by decide) (by decide) (by decide)⟩

/-! ## Claim C3 — `createFile` validation, owner check, fresh ids -/

/-- The id and counter a successful `add_file` hands out: the current
AUTOINCREMENT value, and the counter moves one past it. -/
theorem add_file_ok_ids {db : Db} {uid : Int} {p t n : String}
    {y : Int × Db} (h : add_file db uid p t n = .ok y) :
    y.1 = db.nextFileId ∧ y.2.nextFileId = db.nextFileId + 1 := by
  unfold add_file at h
  split_ifs at h <;> simp only [Except.ok.injEq] at h
  subst h
  simp

/-- `nextFileId` never decreases, whatever operation runs. -/
theorem nextFileId_mono (db : Db) (op : Op) :
    db.nextFileId ≤ (applyOp db op).nextFileId := by
  cases op <;>
    simp only [applyOp, opResult, add_user, add_file, rate_file] <;>
    split_ifs <;> simp [Except.map]

/-- Every file id handed out along an operation sequence is at least the
starting AUTOINCREMENT value. -/
theorem createdIds_lower (ops : List Op) : ∀ (db : Db) (x : Int),
    x ∈ createdIds db ops → db.nextFileId ≤ x := by
  induction ops with
  | nil => intro db x hx; simp [createdIds] at hx
  | cons op rest ih =>
    intro db x hx
    cases op with
    | addFile uid p t n =>
      simp only [createdIds] at hx
      cases hh : add_file db uid p t n with
      | ok y =>
        rw [hh] at hx
        obtain ⟨h₁, h₂⟩ := add_file_ok_ids hh
        rcases List.mem_cons.mp hx with rfl | hx₂
        · omega
        · have := ih y.2 x hx₂
          omega
      | error e =>
        rw [hh] at hx
        exact ih db x hx
    | addUser uid name =>
      simp only [createdIds] at hx
      have := ih _ x hx
      have := nextFileId_mono db (.addUser uid name)
      omega
    | rateFile f u r =>
      simp only [createdIds] at hx
      have := ih _ x hx
      have := nextFileId_mono db (.rateFile f u r)
      omega

/-- Claim C3: `createFile` fails with `ValidationError` on any blank or
invalid field; fails with `NotFoundError` when the owner id has no matching
user; for a known owner with valid fields it succeeds and returns the
current AUTOINCREMENT id; and across any sequence of operations the ids of
successful creations are strictly increasing (hence unique). -/
theorem claim_C3_create_file :
    (∀ (db : Db) (uid : Int) (p t n : String),
      (uid ≤ 0 ∨ pyBlank p ∨ pyBlank t ∨ pyBlank n) →
      add_file db uid p t n = .error .validationError) ∧
    (∀ (db : Db) (uid : Int) (p t n : String),
      0 < uid → pyBlank p = false → pyBlank t = false → pyBlank n = false →
      (∀ u ∈ db.users, u.user_id ≠ uid) →
      add_file db uid p t n = .error .notFoundError) ∧
    (∀ (db : Db) (uid : Int) (p t n : String),
      0 < uid → pyBlank p = false → pyBlank t = false → pyBlank n = false →
      (∃ u ∈ db.users, u.user_id = uid) →
      ∃ db₂, add_file db uid p t n = .ok (db.nextFileId, db₂)) ∧
    (∀ (db : Db) (ops : List Op),
      (createdIds db ops).Pairwise (· < ·) ∧ (createdIds db ops).Nodup) := by
  refine ⟨?_, ?_, ?_, ?_⟩
  · intro db uid p t n h
    unfold add_file
    split_ifs <;> first | rfl | tauto
  · intro db uid p t n huid hp ht hn hnouser
    unfold add_file
    rw [if_neg (by omega), if_neg (by simp [hp]), if_neg (by simp [ht]),
      if_neg (by simp [hn]), if_pos]
    rw [List.all_eq_true]
    intro u hu
    simp [hnouser u hu]
  · intro db uid p t n huid hp ht hn ⟨u₀, hu₀, hid₀⟩
    unfold add_file
    rw [if_neg (by omega), if_neg (by simp [hp]), if_neg (by simp [ht]),
      if_neg (by simp [hn]), if_neg ?_]
    · exact ⟨_, rfl⟩
    · intro hcontra
      rw [List.all_eq_true] at hcontra
      have h₀ := hcontra u₀ hu₀
      simp [hid₀] at h₀
  · intro db ops
    have hpw : ∀ (l : List Op) (d : Db), (createdIds d l).Pairwise (· < ·) := by
      intro l
      induction l with
      | nil => intro d; simp [createdIds]
      | cons op rest ih =>
        intro d
        cases op with
        | addFile uid p t n =>
          simp only [createdIds]
          cases hh : add_file d uid p t n with
          | error e => exact ih d
          | ok y =>
            refine List.Pairwise.cons ?_ (ih y.2)
            intro x hx
            obtain ⟨h₁, h₂⟩ := add_file_ok_ids hh
            have := createdIds_lower rest y.2 x hx
            omega
        | addUser uid name => simp only [createdIds]; exact ih _
        | rateFile f u r => simp only [createdIds]; exact ih _
    exact ⟨hpw ops db, (hpw ops db).imp (fun h => ne_of_lt h)⟩

/-- Witness for `claim_C3_create_file` (second conjunct) at `dbInit`,
owner 5: the empty store knows no user, so creation fails with
`NotFoundError`. -/
theorem claim_C3_create_file_witness :
    ((0 : Int) < 5 ∧ pyBlank "storage/a.pdf" = false ∧
      pyBlank "матан" = false ∧ pyBlank "a.pdf" = false ∧
      (∀ u ∈ dbInit.users, u.user_id ≠ 5)) ∧
    add_file dbInit 5 "storage/a.pdf" "матан" "a.pdf" = .error .notFoundError :=
  ⟨⟨by decide, by decide, by decide, by decide, by decide⟩,
   claim_C3_create_file.2.1 dbInit 5 "storage/a.pdf" "матан" "a.pdf"
     (by decide) (by decide) (by decide) (by decide) (by decide)⟩

/-! ## Claim C4 — `rate` validation and not-found handling -/

/-- Claim C4: a score outside `1..5` (such as 0 or 6) or a non-positive id
always fails with `ValidationError`; a known file id with scores 1 and 5
(and a valid rater) always succeeds; and an unknown file id fails with
`NotFoundError` without creating a rating row. -/
theorem claim_C4_rate :
    (∀ (db : Db) (fid uid s : Int),
      (fid ≤ 0 ∨ uid ≤ 0 ∨ ¬(1 ≤ s ∧ s ≤ 5)) →
      rate_file db fid uid s = .error .validationError) ∧
    (∀ (db : Db) (fid uid s : Int),
      0 < fid → 0 < uid → (s = 1 ∨ s = 5) →
      (∃ f ∈ db.files, f.file_id = fid) →
      ∃ db₂, rate_file db fid uid s = .ok db₂) ∧
    (∀ (db : Db) (fid uid s : Int),
      0 < fid → 0 < uid → 1 ≤ s → s ≤ 5 →
      (∀ f ∈ db.files, f.file_id ≠ fid) →
      rate_file db fid uid s = .error .notFoundError ∧
      applyOp db (.rateFile fid uid s) = db) := by
  refine ⟨?_, ?_, ?_⟩
  · intro db fid uid s h
    unfold rate_file
    split_ifs <;> first | rfl | tauto
  · intro db fid uid s hfid huid hs hex
    exact ⟨_, rate_file_ok (by omega) (by omega) (by rcases hs with rfl | rfl <;> omega) hex⟩
  · intro db fid uid s hfid huid hs₁ hs₂ hnof
    have herr : rate_file db fid uid s = .error .notFoundError := by
      unfold rate_file
      rw [if_neg (by omega), if_neg (by omega), if_neg (not_not_intro ⟨hs₁, hs₂⟩),
        if_pos]
      rw [List.all_eq_true]
      intro f hf
      simp [hnof f hf]
    exact ⟨herr, by simp [applyOp, opResult, herr]⟩

/-- Witness for `claim_C4_rate` (third conjunct): rating the unknown file 9
of `dbSample1` fails with `NotFoundError` and leaves the store unchanged. -/
theorem claim_C4_rate_witness :
    ((0 : Int) < 9 ∧ (0 : Int) < 2 ∧ (1 : Int) ≤ 5 ∧ (5 : Int) ≤ 5 ∧
      (∀ f ∈ dbSample1.files, f.file_id ≠ 9)) ∧
    (rate_file dbSample1 9 2 5 = .error .notFoundError ∧
     applyOp dbSample1 (.rateFile 9 2 5) = dbSample1) :=
  ⟨⟨by decide, by decide, by decide, by decide, by decide⟩,
   claim_C4_rate.2.2 dbSample1 9 2 5 (by decide) (by decide) (by decide)
     (by decide) (by decide)⟩

/-! ## Claim C6 — failed operations do not mutate the store -/

/-- Claim C6: whenever a store operation (`upsertUser`, `createFile`,
`rate`) fails — with `ValidationError` or `NotFoundError` — the store after
the call is the store before the call.  In the embedding each operation
validates and raises before building any new state, mirroring the code,
which raises before its INSERT and runs each call in its own
transaction. -/
theorem claim_C6_no_mutation_on_error (db : Db) (op : Op) (e : DbError)
    (h : opResult db op = .error e) : applyOp db op = db := by
  simp [applyOp, h]

/-- Witness for `claim_C6_no_mutation_on_error`: `add_user` with a blank
name fails and leaves the empty store empty. -/
theorem claim_C6_no_mutation_on_error_witness :
    opResult dbInit (.addUser 3 "   ") = .error .validationError ∧
    applyOp dbInit (.addUser 3 "   ") = dbInit :=
  ⟨by rfl,
   claim_C6_no_mutation_on_error dbInit (.addUser 3 "   ") .validationError
     (by rfl)⟩

/-! ## Claim C7 — `getFilePath` is total -/

/-- Claim C7: `getFilePath` never raises (it is a total function into
`Option`); it returns `none` — the "not found" answer — on every
non-positive id and on every id with no matching file row, and the stored
path of the first matching row otherwise.  (Non-integer inputs have no
counterpart in the typed embedding; the code returns `None` for them via
the same `isinstance` guard that rejects non-positive ids.) -/
theorem claim_C7_get_file_path (db : Db) (fid : Int) :
    (fid ≤ 0 → get_file_path_by_id db fid = none) ∧
    ((∀ f ∈ db.files, f.file_id ≠ fid) → get_file_path_by_id db fid = none) ∧
    (∀ f, 0 < fid → db.files.find? (fun x => x.file_id = fid) = some f →
      get_file_path_by_id db fid = some f.file_path) := by
  refine ⟨?_, ?_, ?_⟩
  · intro h
    simp [get_file_path_by_id, h]
  · intro h
    by_cases hfid : fid ≤ 0
    · simp [get_file_path_by_id, hfid]
    · rw [get_file_path_by_id, if_neg hfid]
      rw [List.find?_eq_none.mpr]
      · rfl
      · intro f hf
        simp [h f hf]
  · intro f hfid hfind
    rw [get_file_path_by_id, if_neg (by omega), hfind]
    rfl

/-- Witness for `claim_C7_get_file_path`: in `dbSample1`, file 1 resolves
to its stored path and file 9 to "not found". -/
theorem claim_C7_get_file_path_witness :
    ((∀ f ∈ dbSample1.files, f.file_id ≠ 9) ∧
      get_file_path_by_id dbSample1 9 = none) ∧
    ((0 : Int) < 1 ∧
      dbSample1.files.find? (fun x => x.file_id = 1) =
        some ⟨1, 1, "storage/lec.pdf", "матан, лекция", "Лекция.pdf"⟩ ∧
      get_file_path_by_id dbSample1 1 = some "storage/lec.pdf") :=
  ⟨⟨by decide, (claim_C7_get_file_path dbSample1 9).2.1 (by decide)⟩,
   ⟨by decide, by decide,
    (claim_C7_get_file_path dbSample1 1).2.2
      ⟨1, 1, "storage/lec.pdf", "матан, лекция", "Лекция.pdf"⟩ (by decide)
      (by decide)⟩⟩

/-! ## Claims C1 and C10 — tag search -/

/-- A sample store for the search examples: one author with a file tagged
`"матан, лекция"` and a file tagged `"физика"`. -/
def dbSample3 : Db :=
  { users := [⟨1, "Олег"⟩],
    files := [⟨1, 1, "storage/lec.pdf", "матан, лекция", "Лекция.pdf"⟩,
              ⟨2, 1, "storage/phys.pdf", "физика", "Физика.pdf"⟩],
    ratings := [],
    nextFileId := 3 }

/-- A sample store whose single file carries the single tag `"матан"`. -/
def dbSample4 : Db :=
  { users := [⟨1, "Олег"⟩],
    files := [⟨1, 1, "storage/x.pdf", "матан", "x.pdf"⟩],
    ratings := [],
    nextFileId := 2 }

/-- Claim C1: a blank query fails with `ValidationError`; a non-blank query
returns exactly the files (joined with their author names) whose
comma-split, trimmed, lowered tag words meet the whitespace-split, lowered
query words, each with its computed average rating.  Concretely, on
`dbSample3` the query `"матан"` (in any letter case) matches the file
tagged `"матан, лекция"` and not the one tagged `"физика"`, while the
substring `"мата"` matches nothing. -/
theorem claim_C1_search (db : Db) (q : String) (r : SearchRow) :
    (pyBlank q = true → search_files db q = .error .validationError) ∧
    (pyBlank q = false → search_files db q = .ok (searchRows db q)) ∧
    (r ∈ searchRows db q ↔ ∃ f a, (f, a) ∈ joinRows db ∧
      (∃ w ∈ query_words q, w ∈ tag_words f.tags) ∧ r = mkSearchRow db f a) ∧
    searchRows dbSample3 "матан"
      = [⟨1, "storage/lec.pdf", "Лекция.pdf", "матан, лекция", "Олег", 0⟩] ∧
    searchRows dbSample3 "МАТАН"
      = [⟨1, "storage/lec.pdf", "Лекция.pdf", "матан, лекция", "Олег", 0⟩] ∧
    searchRows dbSample3 "мата" = [] ∧
    search_files dbSample3 "   " = .error .validationError := by
  refine ⟨?_, ?_, ?_, by decide, by decide, by decide, by rfl⟩
  · intro h
    simp [search_files, h]
  · intro h
    simp [search_files, h]
  · simp only [searchRows, List.mem_map, List.mem_filter, wordsIntersect,
      List.any_eq_true]
    constructor
    · rintro ⟨⟨f, a⟩, ⟨hp, ⟨w, hw, hcont⟩⟩, rfl⟩
      exact ⟨f, a, hp, ⟨w, hw, List.elem_iff.mp hcont⟩, rfl⟩
    · rintro ⟨f, a, hp, ⟨w, hw, hmem⟩, rfl⟩
      exact ⟨⟨f, a⟩, ⟨hp, ⟨w, hw, List.elem_iff.mpr hmem⟩⟩, rfl⟩

/-- Witness for `claim_C1_search`: the non-blank branch at `dbSample3`,
query `"матан"`. -/
theorem claim_C1_search_witness :
    pyBlank "матан" = false ∧
    search_files dbSample3 "матан" = .ok (searchRows dbSample3 "матан") :=
  ⟨by decide,
   (claim_C1_search dbSample3 "матан"
     ⟨1, "storage/lec.pdf", "Лекция.pdf", "матан, лекция", "Олег", 0⟩).2.1
     (by decide)⟩

/-- Converting a `Nat` below the surrogate range to a `Char` and back is
the identity. -/
theorem char_toNat_ofNat {n : Nat} (h : n < 0xd800) :
    (Char.ofNat n).toNat = n := by
  have hv : n.isValidChar := Or.inl h
  simp [Char.ofNat, dif_pos hv, Char.ofNatAux, Char.toNat, UInt32.toNat]

/-- `pyLower` maps no character to the comma: lowering moves characters
only inside the letter ranges. -/
theorem pyLower_eq_comma {c : Char} (h : pyLower c = ',') : c = ',' := by
  unfold pyLower at h
  split_ifs at h with h₁ h₂ h₃
  · exfalso
    have hA : (65 : Nat) ≤ c.toNat := h₁.1
    have hZ : c.toNat ≤ 90 := h₁.2
    have hcm : (',').toNat = 44 := by decide
    have := congrArg Char.toNat h
    rw [char_toNat_ofNat (by omega), hcm] at this
    omega
  · exfalso
    have hA : (0x410 : Nat) ≤ c.toNat := h₂.1
    have hZ : c.toNat ≤ 0x42F := h₂.2
    have hcm : (',').toNat = 44 := by decide
    have := congrArg Char.toNat h
    rw [char_toNat_ofNat (by omega), hcm] at this
    omega
  · exact absurd h (by decide)
  · exact h

/-- No piece produced by `splitPred` contains a separator character. -/
theorem splitPred_no_sep {p : Char → Bool} :
    ∀ {l w : List Char}, w ∈ splitPred p l → ∀ c ∈ w, p c = false := by
  intro l
  induction l with
  | nil =>
    intro w hw c hc
    simp [splitPred] at hw
    subst hw
    simp at hc
  | cons x rest ih =>
    intro w hw c hc
    rw [splitPred] at hw
    split at hw
    · simp at hw
      subst hw
      simp at hc
    · rename_i w₀ ws hsp
      split at hw
      · rename_i hpx
        rcases List.mem_cons.mp hw with rfl | hw₂
        · simp at hc
        · exact ih (by rw [hsp]; exact hw₂) c hc
      · rename_i hpx
        rcases List.mem_cons.mp hw with rfl | hw₂
        · rcases List.mem_cons.mp hc with rfl | hc₂
          · exact Bool.eq_false_iff.mpr hpx
          · exact ih (by rw [hsp]; exact List.mem_cons_self w₀ ws) c hc₂
        · exact ih (by rw [hsp]; exact List.mem_cons_of_mem w₀ hw₂) c hc

/-- Stripping only removes characters. -/
theorem mem_trimChars {c : Char} {l : List Char} (h : c ∈ trimChars l) :
    c ∈ l := by
  unfold trimChars at h
  have h₁ := List.mem_reverse.mp h
  have h₂ := (List.dropWhile_sublist pyWs).subset h₁
  have h₃ := List.mem_reverse.mp h₂
  exact (List.dropWhile_sublist pyWs).subset h₃

/-- No tag word contains a comma: tag words are comma-split pieces, and
trimming and lowering cannot introduce one. -/
theorem tag_words_no_comma {tags : String} {w : List Char}
    (hw : w ∈ tag_words tags) : ',' ∉ w := by
  unfold tag_words at hw
  rcases List.mem_map.mp hw with ⟨piece, hpiece, rfl⟩
  intro hc
  rcases List.mem_map.mp hc with ⟨c₀, hc₀, hlow⟩
  have hc₀' : c₀ = ',' := pyLower_eq_comma hlow
  subst hc₀'
  have h₁ : (',') ∈ piece := mem_trimChars hc₀
  have h₂ := splitPred_no_sep hpiece (',') h₁
  simp at h₂

/-- Claim C10: the query is split on whitespace only, never on commas, so a
query token that contains a comma can never equal any tag word — tag words
are comma-split and trimmed, hence comma-free.  Concretely, the query
`"матан, лекция"` still matches the file tagged `"матан, лекция"`, but
only through its comma-free token `"лекция"`; against a file tagged just
`"матан"` the query `"матан,"` matches nothing. -/
theorem claim_C10_comma_query_tokens (q tags : String) (w : List Char)
    (hw : w ∈ query_words q) (hc : (',') ∈ w) :
    w ∉ tag_words tags ∧
    searchRows dbSample3 "матан, лекция"
      = [⟨1, "storage/lec.pdf", "Лекция.pdf", "матан, лекция", "Олег", 0⟩] ∧
    searchRows dbSample4 "матан," = [] := by
  refine ⟨fun hmem => tag_words_no_comma hmem hc, by decide, by decide⟩

/-- Witness for `claim_C10_comma_query_tokens`: the token `"матан,"` of the
query `"матан, лекция"`. -/
theorem claim_C10_comma_query_tokens_witness :
    ("матан,".data ∈ query_words "матан, лекция" ∧ (',') ∈ "матан,".data) ∧
    ("матан,".data ∉ tag_words "матан, лекция" ∧
     searchRows dbSample3 "матан, лекция"
       = [⟨1, "storage/lec.pdf", "Лекция.pdf", "матан, лекция", "Олег", 0⟩] ∧
     searchRows dbSample4 "матан," = []) :=
  ⟨⟨by decide, by decide⟩,
   claim_C10_comma_query_tokens "матан, лекция" "матан, лекция" "матан,".data
     (by decide) (by decide)⟩

/-! ## Claim C9 — the dialogue controller's step-input policy (main.py)

The text-step handlers of main.py are modelled as pure functions from the
store and the incoming reply text to the store and the next
`ConversationHandler` state.  Telegram delivery, replies sent to the user
and the filesystem check of the download step are outside the model.  A
store call that raises an uncaught `ValueError` inside a handler leaves
the conversation where it was (the handler never returns), which the
model renders by returning the unchanged inputs and the same state. -/

/-- The `ConversationHandler` states of main.py lines 44–49, plus
`ConversationHandler.END`. -/
inductive ConvState where
  | awaiting_name
  | awaiting_file
  | awaiting_tags
  | awaiting_search_query
  | awaiting_rating_input
  | awaiting_file_id_for_download
  | conv_end
  deriving DecidableEq, Repr

/-- The six fixed menu-button labels (main.py lines 62–69). -/
def MAIN_MENU_BUTTONS : List String :=
  ["📌 Указать имя", "👤 Мой профиль", "📤 Загрузить файл",
   "📥 Скачать файл", "🔍 Найти файл", "⭐ Оценить файл"]

/-- Python's `int(token)` on an already-stripped token: an optional sign
followed by a non-empty run of decimal digits (underscore group separators
are not modelled). -/
def parseDigits (l : List Char) : Option Int :=
  if l ≠ [] ∧ l.all (·.isDigit) then
    some (l.foldl (fun acc c => acc * 10 + ((c.toNat : Int) - 48)) 0)
  else none

/-- Python's `int(...)` conversion used by the rating and download steps. -/
def pyInt : List Char → Option Int
  | '+' :: rest => parseDigits rest
  | '-' :: rest => (parseDigits rest).map (fun n => -n)
  | l => parseDigits l

/-- The transient upload context kept in `context.user_data` between the
document step and the tags step. -/
structure UploadCtx where
  file_path : String
  original_name : String
  user_id : Int
  deriving DecidableEq, Repr

/-- `receive_name` (main.py lines 138–174): menu label → re-prompt on the
same step; blank → re-prompt; else upsert the user and end. -/
def receive_name (db : Db) (uid : Int) (text : String) : Db × ConvState :=
  let t := pyStrip text
  if MAIN_MENU_BUTTONS.contains t then (db, .awaiting_name)
  else if t = "" then (db, .awaiting_name)
  else
    match add_user db uid t with
    | .ok db₂ => (db₂, .conv_end)
    | .error _ => (db, .awaiting_name)

/-- `receive_tags` (main.py lines 264–325): menu label or blank →
re-prompt; lost context → end without the file record; else create the
file record, clear the context and end. -/
def receive_tags (db : Db) (ctx : Option UploadCtx) (text : String) :
    Db × Option UploadCtx × ConvState :=
  let t := pyStrip text
  if MAIN_MENU_BUTTONS.contains t then (db, ctx, .awaiting_tags)
  else if t = "" then (db, ctx, .awaiting_tags)
  else
    match ctx with
    | none => (db, none, .conv_end)
    | some c =>
      if c.file_path = "" ∨ c.original_name = "" ∨ c.user_id = 0 then
        (db, ctx, .conv_end)
      else
        match add_file db c.user_id c.file_path t c.original_name with
        | .ok x => (x.2, none, .conv_end)
        | .error _ => (db, ctx, .awaiting_tags)

/-- `receive_search_query` (main.py lines 348–392): menu label or blank →
re-prompt; else run the search, render the results and end. -/
def receive_search_query (db : Db) (text : String) :
    List SearchRow × ConvState :=
  let t := pyStrip text
  if MAIN_MENU_BUTTONS.contains t then ([], .awaiting_search_query)
  else if t = "" then ([], .awaiting_search_query)
  else
    match search_files db t with
    | .ok rows => (rows, .conv_end)
    | .error _ => ([], .awaiting_search_query)

/-- `receive_rating_input` (main.py lines 415–469): menu label → re-prompt;
every other outcome — bad format, out-of-range score, store failure or
success — ends the conversation (the `except` clause catches the
`ValueError`s and also returns `END`). -/
def receive_rating_input (db : Db) (uid : Int) (text : String) :
    Db × ConvState :=
  let t := pyStrip text
  if MAIN_MENU_BUTTONS.contains t then (db, .awaiting_rating_input)
  else
    match splitWs t.data with
    | [p₁, p₂] =>
      match pyInt p₁, pyInt p₂ with
      | some fid, some s =>
        if 1 ≤ s ∧ s ≤ 5 then
          match rate_file db fid uid s with
          | .ok db₂ => (db₂, .conv_end)
          | .error _ => (db, .conv_end)
        else (db, .conv_end)
      | _, _ => (db, .conv_end)
    | _ => (db, .conv_end)

/-- `receive_file_id_for_download` (main.py lines 492–539): menu label →
re-prompt; otherwise parse the id, look the path up and end either way.
The result's first component is the path of the file streamed back, if
any (the on-disk existence check is outside the model). -/
def receive_file_id_for_download (db : Db) (text : String) :
    Option String × ConvState :=
  let t := pyStrip text
  if MAIN_MENU_BUTTONS.contains t then (none, .awaiting_file_id_for_download)
  else
    match pyInt t.data with
    | none => (none, .conv_end)
    | some fid =>
      if fid ≤ 0 then (none, .conv_end)
      else
        match get_file_path_by_id db fid with
        | none => (none, .conv_end)
        | some path => (some path, .conv_end)

/-- A reply whose stripped text is a menu label re-prompts the name step. -/
theorem receive_name_button {db : Db} {uid : Int} {text : String}
    (h : pyStrip text ∈ MAIN_MENU_BUTTONS) :
    receive_name db uid text = (db, .awaiting_name) := by
  simp [receive_name, h]

/-- A reply whose stripped text is a menu label re-prompts the tags step. -/
theorem receive_tags_button {db : Db} {ctx : Option UploadCtx} {text : String}
    (h : pyStrip text ∈ MAIN_MENU_BUTTONS) :
    receive_tags db ctx text = (db, ctx, .awaiting_tags) := by
  simp [receive_tags, h]

/-- A reply whose stripped text is a menu label re-prompts the search
step. -/
theorem receive_search_query_button {db : Db} {text : String}
    (h : pyStrip text ∈ MAIN_MENU_BUTTONS) :
    receive_search_query db text = ([], .awaiting_search_query) := by
  simp [receive_search_query, h]

/-- A reply whose stripped text is a menu label re-prompts the rating
step. -/
theorem receive_rating_input_button {db : Db} {uid : Int} {text : String}
    (h : pyStrip text ∈ MAIN_MENU_BUTTONS) :
    receive_rating_input db uid text = (db, .awaiting_rating_input) := by
  simp [receive_rating_input, h]

/-- A reply whose stripped text is a menu label re-prompts the download
step. -/
theorem receive_file_id_button {db : Db} {text : String}
    (h : pyStrip text ∈ MAIN_MENU_BUTTONS) :
    receive_file_id_for_download db text =
      (none, .awaiting_file_id_for_download) := by
  simp [receive_file_id_for_download, h]

/-- The empty string is not a menu label. -/
theorem empty_not_button : MAIN_MENU_BUTTONS.contains ("" : String) = false := by
  decide

/-- Blank input re-prompts the name step. -/
theorem receive_name_blank {db : Db} {uid : Int} {text : String}
    (h : pyStrip text = "") :
    receive_name db uid text = (db, .awaiting_name) := by
  simp [receive_name, h, empty_not_button]

/-- Blank input re-prompts the tags step. -/
theorem receive_tags_blank {db : Db} {ctx : Option UploadCtx} {text : String}
    (h : pyStrip text = "") :
    receive_tags db ctx text = (db, ctx, .awaiting_tags) := by
  simp [receive_tags, h, empty_not_button]

/-- Blank input re-prompts the search step. -/
theorem receive_search_query_blank {db : Db} {text : String}
    (h : pyStrip text = "") :
    receive_search_query db text = ([], .awaiting_search_query) := by
  simp [receive_search_query, h, empty_not_button]

/-- Blank input on the rating step is a parse failure: the conversation
ends instead of re-prompting. -/
theorem receive_rating_input_blank {db : Db} {uid : Int} {text : String}
    (h : pyStrip text = "") :
    receive_rating_input db uid text = (db, .conv_end) := by
  simp only [receive_rating_input, h, empty_not_button, Bool.false_eq_true,
    if_false]
  rfl

/-- Blank input on the download step is a parse failure: the conversation
ends instead of re-prompting. -/
theorem receive_file_id_blank {db : Db} {text : String}
    (h : pyStrip text = "") :
    receive_file_id_for_download db text = (none, .conv_end) := by
  simp only [receive_file_id_for_download, h, empty_not_button,
    Bool.false_eq_true, if_false]
  rfl

/-- Claim C9, counterexample: on the rating and download steps a blank
reply does not re-prompt on the same step — the parse failure path ends
the conversation. -/
theorem claim_C9_counterexample :
    receive_rating_input dbSample1 7 "" = (dbSample1, .conv_end) ∧
    ConvState.conv_end ≠ ConvState.awaiting_rating_input ∧
    receive_file_id_for_download dbSample1 "" = (none, .conv_end) ∧
    ConvState.conv_end ≠ ConvState.awaiting_file_id_for_download := by
  refine ⟨by decide, by decide, by decide, by decide⟩

/-- Claim C9 (amended): on every text-input form step a reply equal to one
of the fixed main-menu labels re-prompts and returns the same step state,
consuming nothing — neither the store nor the transient upload context
changes.  Blank reply text likewise re-prompts on the name, tags and
search steps; on the rating and download steps blank text instead takes
the parse-failure path, which ends the form with an error message. -/
theorem claim_C9_step_input_policy :
    (∀ (db : Db) (uid : Int) (ctx : Option UploadCtx) (text : String),
      text ∈ MAIN_MENU_BUTTONS →
      receive_name db uid text = (db, .awaiting_name) ∧
      receive_tags db ctx text = (db, ctx, .awaiting_tags) ∧
      receive_search_query db text = ([], .awaiting_search_query) ∧
      receive_rating_input db uid text = (db, .awaiting_rating_input) ∧
      receive_file_id_for_download db text =
        (none, .awaiting_file_id_for_download)) ∧
    (∀ (db : Db) (uid : Int) (ctx : Option UploadCtx) (text : String),
      pyStrip text = "" →
      receive_name db uid text = (db, .awaiting_name) ∧
      receive_tags db ctx text = (db, ctx, .awaiting_tags) ∧
      receive_search_query db text = ([], .awaiting_search_query) ∧
      receive_rating_input db uid text = (db, .conv_end) ∧
      receive_file_id_for_download db text = (none, .conv_end)) := by
  constructor
  · intro db uid ctx text hmem
    simp only [MAIN_MENU_BUTTONS, List.mem_cons, List.not_mem_nil,
      or_false] at hmem
    have hbtn : pyStrip text ∈ MAIN_MENU_BUTTONS := by
      rcases hmem with rfl | rfl | rfl | rfl | rfl | rfl <;> decide
    exact ⟨receive_name_button hbtn, receive_tags_button hbtn,
      receive_search_query_button hbtn, receive_rating_input_button hbtn,
      receive_file_id_button hbtn⟩
  · intro db uid ctx text h
    exact ⟨receive_name_blank h, receive_tags_blank h,
      receive_search_query_blank h, receive_rating_input_blank h,
      receive_file_id_blank h⟩

/-- Witness for `claim_C9_step_input_policy`: the label
`"🔍 Найти файл"` and the whitespace-only reply `" "`. -/
theorem claim_C9_step_input_policy_witness :
    ("🔍 Найти файл" ∈ MAIN_MENU_BUTTONS ∧
      receive_name dbSample1 7 "🔍 Найти файл" = (dbSample1, .awaiting_name) ∧
      receive_tags dbSample1 none "🔍 Найти файл"
        = (dbSample1, none, .awaiting_tags) ∧
      receive_search_query dbSample1 "🔍 Найти файл"
        = ([], .awaiting_search_query) ∧
      receive_rating_input dbSample1 7 "🔍 Найти файл"
        = (dbSample1, .awaiting_rating_input) ∧
      receive_file_id_for_download dbSample1 "🔍 Найти файл"
        = (none, .awaiting_file_id_for_download)) ∧
    (pyStrip " " = "" ∧
      receive_name dbSample1 7 " " = (dbSample1, .awaiting_name) ∧
      receive_tags dbSample1 none " " = (dbSample1, none, .awaiting_tags) ∧
      receive_search_query dbSample1 " " = ([], .awaiting_search_query) ∧
      receive_rating_input dbSample1 7 " " = (dbSample1, .conv_end) ∧
      receive_file_id_for_download dbSample1 " " = (none, .conv_end)) :=
  ⟨⟨by decide, claim_C9_step_input_policy.1 dbSample1 7 none "🔍 Найти файл"
      (by decide)⟩,
   ⟨by decide, claim_C9_step_input_policy.2 dbSample1 7 none " "
      (by decide)⟩⟩
